import Mathlib

/-
Verification of the AgentsFramework repository (src/agent.py, src/schemas.py,
src/main.py): a shallow embedding of the schema-generation subsystem and the
agent conversation loop, together with theorems settling the frozen claims.

Modelling conventions:
- JSON values (the results of json.loads and the arguments of json.dumps)
  are the inductive type Value below.  Python dicts are association lists in
  insertion order; assignment to an existing key replaces the value in place,
  matching CPython dict semantics.
- A Python exception is Except.error; normal return is Except.ok.
- Where the source serialises a structure with json.dumps and immediately
  re-parses it with json.loads (extract_function_schema produces a string that
  build_action_input_schema loads), the embedding passes the structured value
  directly, since loads after dumps is the identity on this data.
-/

namespace AgentsFramework

/-- JSON-like values, the shape of json.loads output.  Non-integer numbers do
not occur in the modelled code paths and are omitted. -/
inductive Value where
  | null
  | bool (b : Bool)
  | int (n : Int)
  | str (s : String)
  | arr (items : List Value)
  | obj (fields : List (String × Value))

/-- Python truthiness of a JSON-decoded value: bool(v) is false for None,
empty containers and empty strings. -/
def pyTruthy : Value → Bool
  | Value.null => false
  | Value.bool b => b
  | Value.int n => n != 0
  | Value.str s => s != ""
  | Value.arr items => !items.isEmpty
  | Value.obj fields => !fields.isEmpty

/-- First binding for a key in an association list (Python dict lookup; the
dict-building operations below keep keys unique, so the first match is the
binding). -/
def dictLookup {α : Type} : List (String × α) → String → Option α
  | [], _ => none
  | (k, v) :: rest, key => if k = key then some v else dictLookup rest key

/-- Python dict assignment d[k] = v: replace in place when the key exists,
otherwise append, preserving insertion order. -/
def pyDictSet {α : Type} (d : List (String × α)) (k : String) (v : α) : List (String × α) :=
  if d.any (fun kv => kv.1 == k) then
    d.map (fun kv => if kv.1 == k then (k, v) else kv)
  else
    d ++ [(k, v)]

/-- Build a Python dict from a sequence of key/value pairs by repeated
assignment (the semantics of a dict comprehension or a filling loop). -/
def pyDictOfList {α : Type} (pairs : List (String × α)) : List (String × α) :=
  pairs.foldl (fun d kv => pyDictSet d kv.1 kv.2) []

/-- dict.get(key) on a JSON object: None when the key is missing.  The source
only applies .get to values that the enforced response schema constrains to be
JSON objects; on a non-dict Python would raise AttributeError. -/
def pyGet (v : Value) (key : String) : Value :=
  match v with
  | Value.obj fields => (dictLookup fields key).getD Value.null
  | _ => Value.null

/-- Assignment into a JSON object value (param_schema["title"] = ...). -/
def pyValSet (v : Value) (k : String) (x : Value) : Value :=
  match v with
  | Value.obj fields => Value.obj (pyDictSet fields k x)
  | other => other

/-- str(v) for the values that can reach the unknown-function message.  The
renderings of containers are not modelled (they are unhashable and take the
TypeError path before any formatting). -/
def pyStrOf : Value → String
  | Value.null => "None"
  | Value.bool true => "True"
  | Value.bool false => "False"
  | Value.int n => toString n
  | Value.str s => s
  | Value.arr _ => "<list>"
  | Value.obj _ => "<dict>"

/-- The four primitive annotations of get_python_type that the claims touch
(str, int, float, bool). -/
inductive Prim where
  | str
  | int
  | float
  | bool

mutual
/-- A Python type annotation as dissected by schemas.get_schema_for_type:
primitives and the bare builtins take the origin-None path; enumType models an
Enum subclass (listing its member values in definition order); typedDict a
TypedDict with its annotated fields; unionAnn, listAnn and dictAnn the
subscripted typing forms, carrying the get_args tuple.  noneType models
NoneType (as produced inside Optional), which get_python_type rejects. -/
inductive Ann where
  | prim (p : Prim)
  | noneType
  | bareDict
  | bareList
  | enumType (values : List String)
  | typedDict (fields : FieldList)
  | unionAnn (args : AnnList)
  | listAnn (args : AnnList)
  | dictAnn (args : AnnList)

/-- A get_args tuple of annotations. -/
inductive AnnList where
  | nil
  | cons (a : Ann) (rest : AnnList)

/-- The __annotations__ mapping of a TypedDict, in declaration order. -/
inductive FieldList where
  | nil
  | cons (name : String) (a : Ann) (rest : FieldList)
end

/-- Field names of a TypedDict, in declaration order
(list(annotation.__annotations__.keys())). -/
def fieldNames : FieldList → List String
  | FieldList.nil => []
  | FieldList.cons name _ rest => name :: fieldNames rest

/-- schemas.get_python_type: maps the basic annotations to JSON schema type
strings and raises ValueError otherwise. -/
def get_python_type : Ann → Except String String
  | Ann.prim Prim.str => Except.ok "string"
  | Ann.prim Prim.int => Except.ok "integer"
  | Ann.prim Prim.float => Except.ok "number"
  | Ann.prim Prim.bool => Except.ok "boolean"
  | Ann.bareDict => Except.ok "object"
  | Ann.bareList => Except.ok "array"
  | _ => Except.error "Unsupported annotation type"

mutual
/-- schemas.get_schema_for_type: recursively converts an annotation into a
JSON schema snippet.  Branches follow the source: Enum, then TypedDict, then
the origin dispatch (Union, list, dict, with origin-None falling through to
get_python_type); the branch order differs textually but the constructors are
disjoint, so the dispatch is the same.  The checks key_type is not None and
value_type is not None in the source are vacuous (get_args never yields the
value None), so the two-argument dict branch recurses unconditionally. -/
def get_schema_for_type : Ann → Except String Value
  | Ann.enumType values =>
      Except.ok (Value.obj [("type", Value.str "string"),
        ("enum", Value.arr (values.map Value.str))])
  | Ann.typedDict fields =>
      match fieldSchemas fields with
      | Except.error e => Except.error e
      | Except.ok props =>
          Except.ok (Value.obj [("type", Value.str "object"),
            ("properties", Value.obj props),
            ("required", Value.arr ((fieldNames fields).map Value.str)),
            ("additionalProperties", Value.bool false)])
  | Ann.unionAnn args =>
      match annListSchemas args with
      | Except.error e => Except.error e
      | Except.ok branches => Except.ok (Value.obj [("anyOf", Value.arr branches)])
  | Ann.listAnn (AnnList.cons a _) =>
      match get_schema_for_type a with
      | Except.error e => Except.error e
      | Except.ok items =>
          Except.ok (Value.obj [("type", Value.str "array"), ("items", items)])
  | Ann.listAnn AnnList.nil =>
      Except.ok (Value.obj [("type", Value.str "array"),
        ("items", Value.obj [("type", Value.str "string")])])
  | Ann.dictAnn (AnnList.cons key_type (AnnList.cons value_type AnnList.nil)) =>
      match get_schema_for_type key_type with
      | Except.error e => Except.error e
      | Except.ok key_schema =>
          match get_schema_for_type value_type with
          | Except.error e => Except.error e
          | Except.ok value_schema =>
              Except.ok (Value.obj [("type", Value.str "object"),
                ("properties", Value.obj [("property1", key_schema),
                  ("property2", value_schema)]),
                ("required", Value.arr [Value.str "property1", Value.str "property2"]),
                ("additionalProperties", Value.bool false)])
  | Ann.dictAnn _ =>
      Except.ok (Value.obj [("type", Value.str "object"),
        ("properties", Value.obj [("property1", Value.obj [("type", Value.str "string")]),
          ("property2", Value.obj [("type", Value.str "string")])]),
        ("required", Value.arr [Value.str "property1", Value.str "property2"]),
        ("additionalProperties", Value.bool false)])
  | a =>
      match get_python_type a with
      | Except.error e => Except.error e
      | Except.ok t => Except.ok (Value.obj [("type", Value.str t)])

/-- Pointwise get_schema_for_type over a get_args tuple, propagating the first
failure (the list comprehension over Union arguments). -/
def annListSchemas : AnnList → Except String (List Value)
  | AnnList.nil => Except.ok []
  | AnnList.cons a rest =>
      match get_schema_for_type a with
      | Except.error e => Except.error e
      | Except.ok s =>
          match annListSchemas rest with
          | Except.error e => Except.error e
          | Except.ok r => Except.ok (s :: r)

/-- Pointwise get_schema_for_type over TypedDict fields, propagating failure
(the properties-filling loop). -/
def fieldSchemas : FieldList → Except String (List (String × Value))
  | FieldList.nil => Except.ok []
  | FieldList.cons name a rest =>
      match get_schema_for_type a with
      | Except.error e => Except.error e
      | Except.ok s =>
          match fieldSchemas rest with
          | Except.error e => Except.error e
          | Except.ok r => Except.ok ((name, s) :: r)
end

/-- The semantics of a registered callable invoked as function(**kwargs):
keyword arguments in, Except.error for a raised exception. -/
def Func : Type := List (String × Value) → Except String Value

/-- An entry of the callable registry as seen by inspect.signature: the
declared parameters in order (none marks a missing annotation, which the
extractor defaults to str), the docstring, and the callable itself. -/
structure PyCallable where
  params : List (String × Option Ann)
  doc : Option String
  impl : Func

/-- Python str.lower(), character-wise (the registered names are plain
ASCII identifiers, where this agrees with Python). -/
def pyLower (s : String) : String :=
  String.mk (s.data.map Char.toLower)

/-- Python str.capitalize(): first character upper-cased, the rest
lower-cased. -/
def pyCapitalize (s : String) : String :=
  match s.data with
  | [] => ""
  | c :: rest => String.mk (c.toUpper :: rest.map Char.toLower)

/-- The per-parameter loop of extract_function_schema: map each annotation
(defaulting a missing one to str), then assign title and description into the
schema snippet, building the parameters dict in declaration order. -/
def paramSchemas : List (String × Option Ann) → Except String (List (String × Value))
  | [] => Except.ok []
  | (param_name, annOpt) :: rest =>
      let annot := annOpt.getD (Ann.prim Prim.str)
      match get_schema_for_type annot with
      | Except.error e => Except.error e
      | Except.ok param_schema =>
          let param_schema := pyValSet param_schema "title" (Value.str (pyCapitalize param_name))
          let param_schema := pyValSet param_schema "description"
            (Value.str ("Parameter for " ++ param_name))
          match paramSchemas rest with
          | Except.error e => Except.error e
          | Except.ok r => Except.ok ((param_name, param_schema) :: r)

/-- schemas.extract_function_schema: one tool-definition record per registry
entry, in registry order.  The source returns json.dumps of this list; the
embedding keeps the structured list (build_action_input_schema immediately
json.loads it back).  The description falls back to the placeholder when the
docstring is missing or empty (Python truthiness), and is stripped
otherwise. -/
def extract_function_schema : List (String × PyCallable) → Except String (List Value)
  | [] => Except.ok []
  | (name, func) :: rest =>
      match paramSchemas func.params with
      | Except.error e => Except.error e
      | Except.ok parameters_schema =>
          let description :=
            match func.doc with
            | some d => if d = "" then "No description available." else d.trim
            | none => "No description available."
          let tool := Value.obj [
            ("function", Value.obj [
              ("name", Value.str name),
              ("description", Value.str description),
              ("parameters", Value.obj [
                ("type", Value.str "object"),
                ("properties", Value.obj parameters_schema),
                ("required", Value.arr (parameters_schema.map (fun kv => Value.str kv.1))),
                ("additionalProperties", Value.bool false)]),
              ("strict", Value.bool true)]),
            ("type", Value.str "function")]
          match extract_function_schema rest with
          | Except.error e => Except.error e
          | Except.ok r => Except.ok (tool :: r)

/-- tool[key] subscript on a JSON object: KeyError when missing, TypeError on
a non-object. -/
def pyIndex (v : Value) (key : String) : Except String Value :=
  match v with
  | Value.obj fields =>
      match dictLookup fields key with
      | some x => Except.ok x
      | none => Except.error ("KeyError: " ++ key)
  | _ => Except.error "TypeError: value is not subscriptable"

/-- The per-tool branch of schemas.build_action_input_schema: an object schema
whose name property is an enum restricted to that single tool name and whose
arguments property is the tool parameter schema. -/
def branchFor (tool : Value) : Except String Value :=
  match pyIndex tool "function" with
  | Except.error e => Except.error e
  | Except.ok func_info =>
      match pyIndex func_info "name" with
      | Except.error e => Except.error e
      | Except.ok nameV =>
          match pyIndex func_info "description" with
          | Except.error e => Except.error e
          | Except.ok descV =>
              match pyIndex func_info "parameters" with
              | Except.error e => Except.error e
              | Except.ok paramsV =>
                  Except.ok (Value.obj [
                    ("type", Value.str "object"),
                    ("properties", Value.obj [
                      ("name", Value.obj [("enum", Value.arr [nameV]),
                        ("description", descV)]),
                      ("arguments", paramsV)]),
                    ("required", Value.arr [Value.str "name", Value.str "arguments"]),
                    ("additionalProperties", Value.bool false)])

/-- The branch-accumulating loop of build_action_input_schema, in tool
order. -/
def branchList : List Value → Except String (List Value)
  | [] => Except.ok []
  | tool :: rest =>
      match branchFor tool with
      | Except.error e => Except.error e
      | Except.ok b =>
          match branchList rest with
          | Except.error e => Except.error e
          | Except.ok r => Except.ok (b :: r)

/-- The null branch appended after all tool branches. -/
def nullBranch : Value := Value.obj [("type", Value.str "null")]

/-- schemas.build_action_input_schema: one branch per tool definition, in
order, followed by the null branch. -/
def build_action_input_schema (tool_definitions : List Value) : Except String (List Value) :=
  match branchList tool_definitions with
  | Except.error e => Except.error e
  | Except.ok branches => Except.ok (branches ++ [nullBranch])

/-- The top-level response-schema object of generate_response_schema, as a
function of the computed Action Input branches. -/
def responseSchemaOf (branches : List Value) : Value :=
  Value.obj [
    ("type", Value.str "object"),
    ("description", Value.str "Schema for AI responses ensuring strict JSON formatting."),
    ("properties", Value.obj [
      ("Thought", Value.obj [("type", Value.str "string"),
        ("description", Value.str "AI\x27s reasoning before taking action.")]),
      ("Action", Value.obj [("type", Value.str "string"),
        ("enum", Value.arr [Value.str "CALL_FUNCTION", Value.str "NONE"]),
        ("description", Value.str "Chosen action.")]),
      ("Action Input", Value.obj [("anyOf", Value.arr branches)]),
      ("Observation", Value.obj [
        ("anyOf", Value.arr [
          Value.obj [("type", Value.str "string")],
          Value.obj [("type", Value.str "null")],
          Value.obj [("type", Value.str "object"),
            ("additionalProperties", Value.bool false)]]),
        ("description", Value.str "Result of the executed action.")]),
      ("Final Answer", Value.obj [
        ("anyOf", Value.arr [Value.obj [("type", Value.str "string")],
          Value.obj [("type", Value.str "null")]]),
        ("description", Value.str "Final answer to the query. Should be null if an action is executed.")])]),
    ("additionalProperties", Value.bool false),
    ("required", Value.arr [Value.str "Thought", Value.str "Action",
      Value.str "Action Input", Value.str "Observation", Value.str "Final Answer"])]

/-- schemas.generate_response_schema: the full strict response schema, whose
Action Input field holds the branches built from the tool definitions. -/
def generate_response_schema (tool_definitions : List Value) : Except String Value :=
  match build_action_input_schema tool_definitions with
  | Except.error e => Except.error e
  | Except.ok branches => Except.ok (responseSchemaOf branches)

/-- A recipient agent as seen by the caller: its name attribute and its call
entry point (which runs the nested agent loop and may itself raise). -/
structure Peer where
  name : String
  call : Value → Except String Value

/-- One synthesized recipient-call function of Agent._register_recipients.
Its signature is (message: str, recipient_name: RecipientsEnum,
function_doc=function_doc): three parameters, the third unannotated with a
default value capturing the per-peer doc text.  The body line that applies
.format to a string literal is an expression statement, not a bare literal,
so no docstring is set (doc := none).  The implementation binds keyword
arguments, then looks the selector up in the shared recipient mapping and
forwards the message to that peer. -/
def generated_function (recipient_mapping : List (String × Peer))
    (enumValues : List String) : PyCallable :=
  PyCallable.mk
    [("message", some (Ann.prim Prim.str)),
     ("recipient_name", some (Ann.enumType enumValues)),
     ("function_doc", none)]
    none
    (fun kwargs =>
      if kwargs.any (fun kv =>
          !(kv.1 == "message" || kv.1 == "recipient_name" || kv.1 == "function_doc")) then
        Except.error "TypeError: unexpected keyword argument"
      else
        match dictLookup kwargs "message", dictLookup kwargs "recipient_name" with
        | some message, some recipient_name =>
            (match recipient_name with
             | Value.str s =>
                 (match dictLookup recipient_mapping s with
                  | some peer => peer.call message
                  | none => Except.error "KeyError")
             | _ => Except.error "KeyError")
        | _, _ => Except.error "TypeError: missing required argument")

/-- Agent._register_recipients: build the RecipientsEnum member values (one
per distinct lower-cased peer name, via a dict comprehension) and the
recipient mapping, then install one talk_to function per recipient into the
registry.  In the source the mapping dict is filled inside the same loop, but
every closure shares that one dict object and calls only happen after
registration completes, so each call observes the fully populated mapping;
the embedding passes the final mapping to every generated function. -/
def register_recipients (functions : List (String × PyCallable))
    (recipients : List (Peer × String)) : List (String × PyCallable) :=
  let enum_members := pyDictOfList (recipients.map
    (fun rd => (pyLower rd.1.name, pyLower rd.1.name)))
  let enumValues := enum_members.map (fun kv => kv.2)
  let recipient_mapping := pyDictOfList (recipients.map
    (fun rd => (pyLower rd.1.name, rd.1)))
  recipients.foldl (fun fns rd =>
    pyDictSet fns ("talk_to_" ++ pyLower rd.1.name)
      (generated_function recipient_mapping enumValues)) functions

/-- One transcript entry: a role-tagged message.  The source stores content
as a string (json.dumps of the payload for function results, the raw model
output for assistant turns); the embedding stores the structured value, which
the serialisation determines. -/
structure Message where
  role : String
  content : Value
  name : Option Value

/-- The assistant entry appended for one raw model response. -/
def assistantMsg (resp : Value) : Message :=
  Message.mk "assistant" resp none

/-- The corrective system entry of the malformed-response branch. -/
def correctiveMessage : Message :=
  Message.mk "system"
    (Value.str "Action Input and Final Answer can\x27t be null simultaneously")
    none

/-- Agent.call_function: look the name up in the registry; a miss (or any
non-string hashable name, for which dict.get also returns None) yields the
structured unknown-function payload; a hit invokes the callable, whose raised
exceptions propagate uncaught.  Container names are unhashable and raise
TypeError inside dict.get.  Python formats the unknown name into the message
between single quotes, written here with escapes. -/
def call_function (functions : List (String × Func)) (function_name : Value)
    (kwargs : List (String × Value)) : Except String Value :=
  match function_name with
  | Value.obj _ => Except.error "TypeError: unhashable type"
  | Value.arr _ => Except.error "TypeError: unhashable type"
  | Value.str s =>
      (match dictLookup functions s with
       | some function => function kwargs
       | none => Except.ok (Value.obj [("error",
           Value.str ("Unknown function \x27" ++ s ++ "\x27"))]))
  | v => Except.ok (Value.obj [("error",
      Value.str ("Unknown function \x27" ++ pyStrOf v ++ "\x27"))])

/-- The outcome of one loop iteration: return a final answer to the caller,
or continue with the grown transcript. -/
inductive StepOutcome where
  | done (answer : Value) (conv : List Message)
  | next (conv : List Message)

/-- The body of one iteration of Agent.call after the assistant message has
been appended: the Final Answer truthiness test, the Action Input walrus test,
the dispatch (name and arguments extraction, call_function, function-result
append), and the corrective-system-message branch.  The conv argument is the
transcript including the just-appended assistant entry. -/
def dispatchPhase (functions : List (String × Func)) (conv : List Message)
    (structured_output : Value) : Except String StepOutcome :=
  if pyTruthy (pyGet structured_output "Final Answer") then
    Except.ok (StepOutcome.done (pyGet structured_output "Final Answer") conv)
  else
    let action_input := pyGet structured_output "Action Input"
    if pyTruthy action_input then
      match action_input with
      | Value.obj ai_fields =>
          let function_name := (dictLookup ai_fields "name").getD Value.null
          let arguments := (dictLookup ai_fields "arguments").getD (Value.obj [])
          (match arguments with
           | Value.obj kwargs =>
               (match call_function functions function_name kwargs with
                | Except.error e => Except.error e
                | Except.ok function_result =>
                    Except.ok (StepOutcome.next (conv ++
                      [Message.mk "function" function_result (some function_name)])))
           | _ => Except.error "TypeError: arguments did not unpack as a mapping")
      | _ => Except.error "AttributeError: Action Input is not a dict"
    else
      Except.ok (StepOutcome.next (conv ++ [correctiveMessage]))

/-- One full iteration of the Agent.call loop on a parsed response: append the
assistant message, then run the dispatch phase.  Decode failures of
json.loads and the diagnostic printing are outside the modelled behaviour
(responses are parsed values here). -/
def callStep (functions : List (String × Func)) (conv : List Message)
    (resp : Value) : Except String StepOutcome :=
  dispatchPhase functions (conv ++ [assistantMsg resp]) resp

/-- What Agent.call hands back: the returned value (a final answer or the
sentinel string) together with the final transcript state. -/
structure CallResult where
  result : Value
  conversation : List Message

/-- The retry loop of Agent.call: the completion endpoint is modelled as a
function from the transcript-so-far to the parsed response (the request is
issued against the full conversation).  When the iteration budget runs out
the fixed sentinel string is returned. -/
def callLoop (functions : List (String × Func)) (respond : List Message → Value) :
    Nat → List Message → Except String CallResult
  | 0, conv =>
      Except.ok (CallResult.mk (Value.str "Error: Maximum retries reached.") conv)
  | Nat.succ fuel, conv =>
      match callStep functions conv (respond conv) with
      | Except.error e => Except.error e
      | Except.ok (StepOutcome.done v conv2) =>
          Except.ok (CallResult.mk v conv2)
      | Except.ok (StepOutcome.next conv2) => callLoop functions respond fuel conv2

/-- Agent.call: append the user message, then run up to max_retries
iterations. -/
def call (functions : List (String × Func)) (conv : List Message)
    (respond : List Message → Value) (user_input : String)
    (max_retries : Nat) : Except String CallResult :=
  callLoop functions respond max_retries
    (conv ++ [Message.mk "user" (Value.str user_input) none])

/-- Agent.call invoked without the max_retries argument: the declared default
is 100. -/
def callDefault (functions : List (String × Func)) (conv : List Message)
    (respond : List Message → Value) (user_input : String) : Except String CallResult :=
  call functions conv respond user_input 100

/- Concrete fixtures used by witnesses and counterexamples. -/

/-- A schema-conforming response whose Final Answer and Action Input are both
null (the malformed state of the recovery branch). -/
def malformedResp : Value :=
  Value.obj [("Thought", Value.str "thinking"), ("Action", Value.str "NONE"),
    ("Action Input", Value.null), ("Observation", Value.null),
    ("Final Answer", Value.null)]

/-- A response carrying Final Answer 42 and a null Action Input (the
termination scenario of the spec). -/
def finalResp : Value :=
  Value.obj [("Thought", Value.str "thinking"), ("Action", Value.str "NONE"),
    ("Action Input", Value.null), ("Observation", Value.null),
    ("Final Answer", Value.str "42")]

/-- A response dispatching the function boom with empty arguments. -/
def boomResp : Value :=
  Value.obj [("Thought", Value.str "thinking"), ("Action", Value.str "CALL_FUNCTION"),
    ("Action Input", Value.obj [("name", Value.str "boom"),
      ("arguments", Value.obj [])]),
    ("Observation", Value.null), ("Final Answer", Value.null)]

/-- A response dispatching an unregistered function name. -/
def missingResp : Value :=
  Value.obj [("Thought", Value.str "thinking"), ("Action", Value.str "CALL_FUNCTION"),
    ("Action Input", Value.obj [("name", Value.str "missing"),
      ("arguments", Value.obj [])]),
    ("Observation", Value.null), ("Final Answer", Value.null)]

/-- A registered callable that raises on every invocation. -/
def boomFunc : Func := fun _ => Except.error "RuntimeError: boom"

/-- The peer agent of src/main.py: name Agent2, with its call entry point
abstracted to a fixed reply. -/
def agent2Peer : Peer :=
  Peer.mk "Agent2" (fun _ => Except.ok (Value.str "Hello from Agent2"))

/-- The registry obtained by registering agent2Peer as a recipient on an
agent with no other functions (the construction of Agent1 in src/main.py). -/
def agent1Registry : List (String × PyCallable) :=
  register_recipients [] [(agent2Peer, "provides greeting functionality")]

/-- The required list of a tool definition
(tool.function.parameters.required). -/
def toolParamRequired (tool : Value) : Value :=
  pyGet (pyGet (pyGet tool "function") "parameters") "required"

/-- The properties dict of a tool definition
(tool.function.parameters.properties). -/
def toolParamProps (tool : Value) : Value :=
  pyGet (pyGet (pyGet tool "function") "parameters") "properties"

/-- A concrete one-tool sequence for exercising the response-schema builder:
the tool extracted from the say_hello registry of src/main.py, starting with
its parameter schema. -/
def sampleParams : Value :=
  Value.obj [("type", Value.str "object"),
    ("properties", Value.obj [("name", Value.obj [("type", Value.str "string"),
      ("title", Value.str "Name"),
      ("description", Value.str "Parameter for name")])]),
    ("required", Value.arr [Value.str "name"]),
    ("additionalProperties", Value.bool false)]

/-- The tool definition for say_hello. -/
def sampleTool : Value :=
  Value.obj [("function", Value.obj [("name", Value.str "say_hello"),
    ("description", Value.str "No description available."),
    ("parameters", sampleParams),
    ("strict", Value.bool true)]),
    ("type", Value.str "function")]

/-- The branch the builder produces for say_hello. -/
def sampleBranch : Value :=
  Value.obj [("type", Value.str "object"),
    ("properties", Value.obj [
      ("name", Value.obj [("enum", Value.arr [Value.str "say_hello"]),
        ("description", Value.str "No description available.")]),
      ("arguments", sampleParams)]),
    ("required", Value.arr [Value.str "name", Value.str "arguments"]),
    ("additionalProperties", Value.bool false)]

/- ------------------------------------------------------------------ -/
/- Theorems settling the claims                                        -/
/- ------------------------------------------------------------------ -/

/-- C7: for every List type descriptor the mapper produces an array schema
whose items field is the recursively mapped element type, and for a List
descriptor with unspecified element type (an empty get_args tuple) the array
schema gets string items.  A recursive failure propagates, as in the
source. -/
theorem list_descriptor_maps_to_array_schema (a : Ann) (rest : AnnList) :
    get_schema_for_type (Ann.listAnn (AnnList.cons a rest)) =
      (get_schema_for_type a).map (fun items =>
        Value.obj [("type", Value.str "array"), ("items", items)])
    ∧ get_schema_for_type (Ann.listAnn AnnList.nil) =
      Except.ok (Value.obj [("type", Value.str "array"),
        ("items", Value.obj [("type", Value.str "string")])]) := by
  constructor
  · cases h : get_schema_for_type a <;> simp [get_schema_for_type, h, Except.map]
  · rfl

/-- C8: for every Mapping descriptor with key type K and value type V whose
recursive mappings succeed, the mapper produces an object schema with exactly
the synthetic properties property1 (mapped key schema) and property2 (mapped
value schema), both required, with additionalProperties false. -/
theorem mapping_descriptor_maps_to_pair_object (k v : Ann) (ks vs : Value)
    (hk : get_schema_for_type k = Except.ok ks)
    (hv : get_schema_for_type v = Except.ok vs) :
    get_schema_for_type (Ann.dictAnn (AnnList.cons k (AnnList.cons v AnnList.nil))) =
      Except.ok (Value.obj [("type", Value.str "object"),
        ("properties", Value.obj [("property1", ks), ("property2", vs)]),
        ("required", Value.arr [Value.str "property1", Value.str "property2"]),
        ("additionalProperties", Value.bool false)]) := by
  simp [get_schema_for_type, hk, hv]

/-- Witness for C8: the mapping with string keys and integer values,
evaluated concretely. -/
theorem mapping_descriptor_maps_to_pair_object_witness :
    get_schema_for_type (Ann.dictAnn (AnnList.cons (Ann.prim Prim.str)
        (AnnList.cons (Ann.prim Prim.int) AnnList.nil))) =
      Except.ok (Value.obj [("type", Value.str "object"),
        ("properties", Value.obj [("property1", Value.obj [("type", Value.str "string")]),
          ("property2", Value.obj [("type", Value.str "integer")])]),
        ("required", Value.arr [Value.str "property1", Value.str "property2"]),
        ("additionalProperties", Value.bool false)]) :=
  mapping_descriptor_maps_to_pair_object (Ann.prim Prim.str) (Ann.prim Prim.int)
    (Value.obj [("type", Value.str "string")])
    (Value.obj [("type", Value.str "integer")]) rfl rfl

/-- C10: the Action field of a parsed response never influences the loop
transition.  Two responses agreeing on Final Answer and Action Input produce
the same dispatch-phase outcome on the same transcript: the same transition,
the same appended messages and the same returned value.  By definition
callStep runs dispatchPhase on the transcript with the assistant entry
appended, and the assistant entry records the raw response verbatim, so aside
from that verbatim record the iteration behaviour is identical. -/
theorem action_field_never_influences_transition (functions : List (String × Func))
    (conv : List Message) (r1 r2 : Value)
    (hFA : pyGet r1 "Final Answer" = pyGet r2 "Final Answer")
    (hAI : pyGet r1 "Action Input" = pyGet r2 "Action Input") :
    dispatchPhase functions conv r1 = dispatchPhase functions conv r2 := by
  unfold dispatchPhase
  rw [hFA, hAI]

/-- Witness for C10: two concrete responses differing only in the Action
field (CALL_FUNCTION versus NONE) take the same transition. -/
theorem action_field_never_influences_transition_witness :
    dispatchPhase [] []
      (Value.obj [("Thought", Value.str "thinking"), ("Action", Value.str "CALL_FUNCTION"),
        ("Action Input", Value.null), ("Observation", Value.null),
        ("Final Answer", Value.str "42")]) =
    dispatchPhase [] []
      (Value.obj [("Thought", Value.str "thinking"), ("Action", Value.str "NONE"),
        ("Action Input", Value.null), ("Observation", Value.null),
        ("Final Answer", Value.str "42")]) :=
  action_field_never_influences_transition [] []
    (Value.obj [("Thought", Value.str "thinking"), ("Action", Value.str "CALL_FUNCTION"),
      ("Action Input", Value.null), ("Observation", Value.null),
      ("Final Answer", Value.str "42")])
    (Value.obj [("Thought", Value.str "thinking"), ("Action", Value.str "NONE"),
      ("Action Input", Value.null), ("Observation", Value.null),
      ("Final Answer", Value.str "42")])
    rfl rfl

/-- C4: an iteration whose parsed response carries a non-null, non-empty
Final Answer terminates the loop immediately: no function dispatch happens in
that iteration (the transcript gains only the assistant entry) and the call
returns exactly that Final Answer value. -/
theorem final_answer_terminates_immediately (functions : List (String × Func))
    (respond : List Message → Value) (fuel : Nat) (conv : List Message)
    (resp : Value) (s : String)
    (hr : respond conv = resp)
    (hFA : pyGet resp "Final Answer" = Value.str s)
    (hs : s ≠ "") :
    callStep functions conv resp =
      Except.ok (StepOutcome.done (Value.str s) (conv ++ [assistantMsg resp]))
    ∧ callLoop functions respond (fuel + 1) conv =
      Except.ok (CallResult.mk (Value.str s) (conv ++ [assistantMsg resp])) := by
  have hstep : callStep functions conv resp =
      Except.ok (StepOutcome.done (Value.str s) (conv ++ [assistantMsg resp])) := by
    unfold callStep dispatchPhase
    rw [hFA]
    simp [pyTruthy, hs]
  refine ⟨hstep, ?_⟩
  show callLoop functions respond (Nat.succ fuel) conv = _
  unfold callLoop
  rw [hr, hstep]

/-- Witness for C4: the spec scenario, a response with Final Answer 42 and
null Action Input returns 42 at once. -/
theorem final_answer_terminates_immediately_witness :
    callStep [] [] finalResp =
      Except.ok (StepOutcome.done (Value.str "42") [assistantMsg finalResp])
    ∧ callLoop [] (fun _ => finalResp) (0 + 1) [] =
      Except.ok (CallResult.mk (Value.str "42") [assistantMsg finalResp]) :=
  final_answer_terminates_immediately [] (fun _ => finalResp) 0 [] finalResp "42"
    rfl rfl (by decide)

/-- C3: an iteration whose parsed response has both Final Answer and Action
Input falsy (absent or null) neither fails nor terminates: it appends exactly
one corrective system message after the assistant entry and retries, and the
iteration consumes one unit of the retry budget. -/
theorem malformed_response_recovery (functions : List (String × Func))
    (respond : List Message → Value) (fuel : Nat) (conv : List Message)
    (resp : Value)
    (hr : respond conv = resp)
    (hFA : pyTruthy (pyGet resp "Final Answer") = false)
    (hAI : pyTruthy (pyGet resp "Action Input") = false) :
    callStep functions conv resp =
      Except.ok (StepOutcome.next (conv ++ [assistantMsg resp, correctiveMessage]))
    ∧ callLoop functions respond (fuel + 1) conv =
      callLoop functions respond fuel (conv ++ [assistantMsg resp, correctiveMessage]) := by
  have hstep : callStep functions conv resp =
      Except.ok (StepOutcome.next (conv ++ [assistantMsg resp, correctiveMessage])) := by
    unfold callStep dispatchPhase
    simp [hFA, hAI]
  refine ⟨hstep, ?_⟩
  have hsucc : callLoop functions respond (Nat.succ fuel) conv =
      match callStep functions conv (respond conv) with
      | Except.error e => Except.error e
      | Except.ok (StepOutcome.done v conv2) => Except.ok (CallResult.mk v conv2)
      | Except.ok (StepOutcome.next conv2) => callLoop functions respond fuel conv2 := rfl
  rw [hsucc, hr, hstep]

/-- Witness for C3: the spec scenario, a response with null Final Answer and
null Action Input grows the transcript by the corrective system message and
retries with the budget decreased by one. -/
theorem malformed_response_recovery_witness :
    callStep [] [] malformedResp =
      Except.ok (StepOutcome.next [assistantMsg malformedResp, correctiveMessage])
    ∧ callLoop [] (fun _ => malformedResp) (0 + 1) [] =
      callLoop [] (fun _ => malformedResp) 0 [assistantMsg malformedResp, correctiveMessage] :=
  malformed_response_recovery [] (fun _ => malformedResp) 0 [] malformedResp
    rfl rfl rfl

/-- C6 counterexample: a malformed-recovery iteration is not a dispatch
iteration (no function call is executed; the registry is even empty), yet it
grows the transcript by two entries, not one: the assistant entry and the
corrective system entry. -/
theorem corrective_iteration_grows_by_two :
    callStep [] [] malformedResp =
      Except.ok (StepOutcome.next [assistantMsg malformedResp, correctiveMessage])
    ∧ [assistantMsg malformedResp, correctiveMessage].length = 2
    ∧ correctiveMessage.role = "system" :=
  ⟨rfl, rfl, rfl⟩

/-- C6 amended: every completed loop iteration grows the transcript by
exactly one entry when it terminates with a Final Answer, and by exactly two
entries both on dispatch iterations and on malformed-recovery iterations; in
every case the previous transcript is preserved as a prefix (entries are
never removed or modified), and an iteration that is none of these raises. -/
theorem transcript_growth_per_iteration (functions : List (String × Func))
    (conv : List Message) (resp : Value) :
    callStep functions conv resp =
      Except.ok (StepOutcome.done (pyGet resp "Final Answer") (conv ++ [assistantMsg resp]))
    ∨ (∃ m, callStep functions conv resp =
        Except.ok (StepOutcome.next (conv ++ [assistantMsg resp, m])))
    ∨ (∃ e, callStep functions conv resp = Except.error e) := by
  unfold callStep dispatchPhase
  by_cases hFA : pyTruthy (pyGet resp "Final Answer") = true
  · left
    simp [hFA]
  · rw [Bool.not_eq_true] at hFA
    by_cases hAI : pyTruthy (pyGet resp "Action Input") = true
    · cases hv : pyGet resp "Action Input" with
      | obj ai_fields =>
          rw [hv] at hAI
          cases hargs : (dictLookup ai_fields "arguments").getD (Value.obj []) with
          | obj kwargs =>
              cases hcall : call_function functions
                  ((dictLookup ai_fields "name").getD Value.null) kwargs with
              | error e =>
                  right; right
                  exact ⟨e, by simp [hFA, hv, hAI, hargs, hcall]⟩
              | ok function_result =>
                  right; left
                  refine ⟨Message.mk "function" function_result
                    (some ((dictLookup ai_fields "name").getD Value.null)), ?_⟩
                  simp [hFA, hv, hAI, hargs, hcall]
          | null => right; right
                    exact ⟨"TypeError: arguments did not unpack as a mapping",
                      by simp [hFA, hv, hAI, hargs]⟩
          | bool b => right; right
                      exact ⟨"TypeError: arguments did not unpack as a mapping",
                        by simp [hFA, hv, hAI, hargs]⟩
          | int n => right; right
                     exact ⟨"TypeError: arguments did not unpack as a mapping",
                       by simp [hFA, hv, hAI, hargs]⟩
          | str s => right; right
                     exact ⟨"TypeError: arguments did not unpack as a mapping",
                       by simp [hFA, hv, hAI, hargs]⟩
          | arr items => right; right
                         exact ⟨"TypeError: arguments did not unpack as a mapping",
                           by simp [hFA, hv, hAI, hargs]⟩
      | null => rw [hv] at hAI; simp [pyTruthy] at hAI
      | bool b =>
          rw [hv] at hAI
          right; right
          exact ⟨"AttributeError: Action Input is not a dict", by simp [hFA, hv, hAI]⟩
      | int n =>
          rw [hv] at hAI
          right; right
          exact ⟨"AttributeError: Action Input is not a dict", by simp [hFA, hv, hAI]⟩
      | str s =>
          rw [hv] at hAI
          right; right
          exact ⟨"AttributeError: Action Input is not a dict", by simp [hFA, hv, hAI]⟩
      | arr items =>
          rw [hv] at hAI
          right; right
          exact ⟨"AttributeError: Action Input is not a dict", by simp [hFA, hv, hAI]⟩
    · rw [Bool.not_eq_true] at hAI
      right; left
      exact ⟨correctiveMessage, by simp [hFA, hAI]⟩

/-- C1 counterexample: with the registered function boom raising during
execution and a response dispatching it, the step does not convert the
exception into an error payload appended to the transcript: call_function has
no exception handler, so the exception propagates and the whole call fails
(here at loop level with five retries remaining). -/
theorem callable_exception_propagates :
    callStep [("boom", boomFunc)] [] boomResp = Except.error "RuntimeError: boom"
    ∧ callLoop [("boom", boomFunc)] (fun _ => boomResp) 5 [] =
        Except.error "RuntimeError: boom" :=
  ⟨rfl, rfl⟩

/-- C1 amended: in a dispatch step the unknown-name case is non-fatal — the
structured unknown-function payload is appended as the function-result
message and the loop continues — but when the looked-up callable itself
raises during execution the exception propagates uncaught and the call
fails. -/
theorem dispatch_error_handling (functions : List (String × Func))
    (conv : List Message) (resp : Value) (ai_fields : List (String × Value))
    (nameStr : String) (kwargs : List (String × Value))
    (hFA : pyTruthy (pyGet resp "Final Answer") = false)
    (hAI : pyGet resp "Action Input" = Value.obj ai_fields)
    (hNE : ai_fields ≠ [])
    (hname : (dictLookup ai_fields "name").getD Value.null = Value.str nameStr)
    (hargs : (dictLookup ai_fields "arguments").getD (Value.obj []) = Value.obj kwargs) :
    (dictLookup functions nameStr = none →
      callStep functions conv resp = Except.ok (StepOutcome.next (conv ++
        [assistantMsg resp,
         Message.mk "function"
           (Value.obj [("error", Value.str ("Unknown function \x27" ++ nameStr ++ "\x27"))])
           (some (Value.str nameStr))])))
    ∧ (∀ f e, dictLookup functions nameStr = some f → f kwargs = Except.error e →
        callStep functions conv resp = Except.error e) := by
  have hAItrue : pyTruthy (Value.obj ai_fields) = true := by
    cases ai_fields with
    | nil => exact absurd rfl hNE
    | cons x xs => rfl
  constructor
  · intro hmiss
    unfold callStep dispatchPhase
    simp [hFA, hAI, hAItrue, hname, hargs, call_function, hmiss]
  · intro f e hf he
    unfold callStep dispatchPhase
    simp [hFA, hAI, hAItrue, hname, hargs, call_function, hf, he]

/-- Witness for C1 amended: a registry containing only the raising function
boom, and a response naming the unregistered function missing: the error
payload is appended and the loop continues (the raising conjunct is
instantiated at the same input, where its lookup premise picks the boom
entry). -/
theorem dispatch_error_handling_witness :
    ((dictLookup [("boom", boomFunc)] "missing" = none →
      callStep [("boom", boomFunc)] [] missingResp = Except.ok (StepOutcome.next
        ([] ++ [assistantMsg missingResp,
          Message.mk "function"
            (Value.obj [("error", Value.str ("Unknown function \x27" ++ "missing" ++ "\x27"))])
            (some (Value.str "missing"))])))
    ∧ (∀ f e, dictLookup [("boom", boomFunc)] "missing" = some f →
        f [] = Except.error e →
        callStep [("boom", boomFunc)] [] missingResp = Except.error e)) :=
  dispatch_error_handling [("boom", boomFunc)] [] missingResp
    [("name", Value.str "missing"), ("arguments", Value.obj [])] "missing" []
    rfl rfl (by simp) rfl rfl

/-- Helper for C5: if no iteration of the loop ever terminates with a Final
Answer and none raises, the loop runs its full budget and returns the
sentinel. -/
theorem callLoop_exhaustion (functions : List (String × Func))
    (respond : List Message → Value)
    (hnd : ∀ c v c2, callStep functions c (respond c) ≠
      Except.ok (StepOutcome.done v c2))
    (hne : ∀ c e, callStep functions c (respond c) ≠ Except.error e) :
    ∀ (n : Nat) (conv : List Message), ∃ c2,
      callLoop functions respond n conv =
        Except.ok (CallResult.mk (Value.str "Error: Maximum retries reached.") c2) := by
  intro n
  induction n with
  | zero => exact fun conv => ⟨conv, rfl⟩
  | succ n ih =>
      intro conv
      cases h : callStep functions conv (respond conv) with
      | error e => exact absurd h (hne conv e)
      | ok out =>
          cases out with
          | done v c2 => exact absurd h (hnd conv v c2)
          | next c2 =>
              obtain ⟨c3, hc⟩ := ih c2
              refine ⟨c3, ?_⟩
              have hsucc : callLoop functions respond (Nat.succ n) conv =
                  match callStep functions conv (respond conv) with
                  | Except.error e => Except.error e
                  | Except.ok (StepOutcome.done v conv2) => Except.ok (CallResult.mk v conv2)
                  | Except.ok (StepOutcome.next conv2) =>
                      callLoop functions respond n conv2 := rfl
              rw [hsucc, h]
              exact hc

/-- C5: when the configured number of iterations completes without the
terminating transition ever being taken (no response yields a truthy Final
Answer and no dispatch raises), the call returns the fixed sentinel string
Error: Maximum retries reached. and raises no exception; invoked without the
argument, max_retries defaults to 100. -/
theorem retry_exhaustion_returns_sentinel (functions : List (String × Func))
    (conv : List Message) (respond : List Message → Value) (user_input : String)
    (max_retries : Nat)
    (hnd : ∀ c v c2, callStep functions c (respond c) ≠
      Except.ok (StepOutcome.done v c2))
    (hne : ∀ c e, callStep functions c (respond c) ≠ Except.error e) :
    (∃ c2, call functions conv respond user_input max_retries =
      Except.ok (CallResult.mk (Value.str "Error: Maximum retries reached.") c2))
    ∧ callDefault functions conv respond user_input =
        call functions conv respond user_input 100 := by
  refine ⟨?_, rfl⟩
  unfold call
  exact callLoop_exhaustion functions respond hnd hne max_retries
    (conv ++ [Message.mk "user" (Value.str user_input) none])

/-- Witness for C5: an endpoint that always answers with the malformed
response never terminates the loop, so a two-iteration call returns the
sentinel. -/
theorem retry_exhaustion_returns_sentinel_witness :
    (∃ c2, call [] [] (fun _ => malformedResp) "hi" 2 =
      Except.ok (CallResult.mk (Value.str "Error: Maximum retries reached.") c2))
    ∧ callDefault [] [] (fun _ => malformedResp) "hi" =
        call [] [] (fun _ => malformedResp) "hi" 100 :=
  retry_exhaustion_returns_sentinel [] [] (fun _ => malformedResp) "hi" 2
    (fun c v c2 h => by
      have h2 : Except.ok (StepOutcome.next ((c ++ [assistantMsg malformedResp]) ++
          [correctiveMessage])) = Except.ok (StepOutcome.done v c2) := h
      simp at h2)
    (fun c e h => by
      have h2 : Except.ok (StepOutcome.next ((c ++ [assistantMsg malformedResp]) ++
          [correctiveMessage])) = Except.error e := h
      simp at h2)

/-- Indexing an append stays in the left part below its length. -/
theorem get_q_append_left {α : Type} (l1 l2 : List α) :
    ∀ i, i < l1.length → (l1 ++ l2).get? i = l1.get? i := by
  induction l1 with
  | nil => intro i h; exact absurd h (Nat.not_lt_zero i)
  | cons x xs ih =>
      intro i h
      cases i with
      | zero => rfl
      | succ j => exact ih j (Nat.lt_of_succ_lt_succ h)

/-- Indexing just past a list hits a singleton appended after it. -/
theorem get_q_append_singleton {α : Type} (l : List α) (x : α) :
    (l ++ [x]).get? l.length = some x := by
  induction l with
  | nil => rfl
  | cons y ys ih => exact ih

/-- The branch-building loop succeeds pointwise: on success the branch list
has one entry per tool, in order, each the branch built from the
corresponding tool. -/
theorem branchList_spec : ∀ (tools rs : List Value),
    branchList tools = Except.ok rs →
    rs.length = tools.length ∧
    ∀ i, i < tools.length → ∃ tool b, tools.get? i = some tool ∧
      rs.get? i = some b ∧ branchFor tool = Except.ok b := by
  intro tools
  induction tools with
  | nil =>
      intro rs h
      cases rs with
      | nil => exact ⟨rfl, fun i h2 => absurd h2 (Nat.not_lt_zero i)⟩
      | cons r rest =>
          unfold branchList at h
          simp at h
  | cons t ts ih =>
      intro rs h
      unfold branchList at h
      cases hb : branchFor t with
      | error e => rw [hb] at h; simp at h
      | ok b =>
          rw [hb] at h
          cases hrest : branchList ts with
          | error e => rw [hrest] at h; simp at h
          | ok r2 =>
              rw [hrest] at h
              simp at h
              obtain ⟨hlen, hpoint⟩ := ih r2 hrest
              subst h
              refine ⟨by simp [hlen], ?_⟩
              intro i hi
              cases i with
              | zero => exact ⟨t, b, rfl, rfl, hb⟩
              | succ j => exact hpoint j (Nat.lt_of_succ_lt_succ hi)

/-- C9: building the response schema from a tool-definition sequence is
deterministic and idempotent (it is a pure function of the sequence, so two
builds are literally the same term), and on success the Action Input branch
sequence carries exactly one branch per tool, in the order the tools were
passed, followed by one final null branch, with the whole output schema
assembled around exactly those branches. -/
theorem response_schema_deterministic_and_ordered (tools bs : List Value)
    (h : build_action_input_schema tools = Except.ok bs) :
    build_action_input_schema tools = build_action_input_schema tools
    ∧ generate_response_schema tools = Except.ok (responseSchemaOf bs)
    ∧ bs.length = tools.length + 1
    ∧ bs.get? tools.length = some nullBranch
    ∧ ∀ i, i < tools.length → ∃ tool b, tools.get? i = some tool ∧
        bs.get? i = some b ∧ branchFor tool = Except.ok b := by
  have hgen : generate_response_schema tools = Except.ok (responseSchemaOf bs) := by
    unfold generate_response_schema
    rw [h]
  refine ⟨rfl, hgen, ?_⟩
  unfold build_action_input_schema at h
  cases hbl : branchList tools with
  | error e => rw [hbl] at h; simp at h
  | ok rs =>
      rw [hbl] at h
      simp at h
      obtain ⟨hlen, hpoint⟩ := branchList_spec tools rs hbl
      subst h
      refine ⟨by simp [hlen], ?_, ?_⟩
      · rw [show tools.length = rs.length from hlen.symm]
        exact get_q_append_singleton rs nullBranch
      · intro i hi
        obtain ⟨tool, b, ht, hr, hf⟩ := hpoint i hi
        refine ⟨tool, b, ht, ?_, hf⟩
        rw [get_q_append_left rs [nullBranch] i (by rw [hlen]; exact hi)]
        exact hr

/-- Witness for C9: the builder evaluated on the one-tool sequence yields the
say_hello branch followed by the null branch, in that order. -/
theorem response_schema_deterministic_and_ordered_witness :
    build_action_input_schema [sampleTool] = build_action_input_schema [sampleTool]
    ∧ generate_response_schema [sampleTool] =
        Except.ok (responseSchemaOf [sampleBranch, nullBranch])
    ∧ ([sampleBranch, nullBranch] : List Value).length = [sampleTool].length + 1
    ∧ ([sampleBranch, nullBranch] : List Value).get? [sampleTool].length = some nullBranch
    ∧ ∀ i, i < [sampleTool].length → ∃ tool b, [sampleTool].get? i = some tool ∧
        ([sampleBranch, nullBranch] : List Value).get? i = some b ∧
        branchFor tool = Except.ok b :=
  response_schema_deterministic_and_ordered [sampleTool] [sampleBranch, nullBranch] rfl

/-- C2, evaluated at the registration batch of src/main.py (one peer named
Agent2): the synthesized talk_to_agent2 callable has three parameters, not
two — message, the recipient_name selector, and the function_doc default
parameter used to capture the doc text — and the extracted tool definition
lists all three as required.  The recipient_name property is the enumeration
over exactly the registered peer identities, and invoking the callable with a
message and a valid selector forwards the message to that peer and returns
the peer result unchanged, as the claim states for those parts. -/
theorem recipient_tool_lists_three_parameters :
    (extract_function_schema agent1Registry).map (fun tools => tools.map toolParamRequired)
      = Except.ok [Value.arr [Value.str "message", Value.str "recipient_name",
          Value.str "function_doc"]]
    ∧ [Value.str "message", Value.str "recipient_name", Value.str "function_doc"].length ≠ 2
    ∧ (extract_function_schema agent1Registry).map
        (fun tools => tools.map (fun t => pyGet (toolParamProps t) "recipient_name"))
      = Except.ok [Value.obj [("type", Value.str "string"),
          ("enum", Value.arr [Value.str "agent2"]),
          ("title", Value.str "Recipient_name"),
          ("description", Value.str "Parameter for recipient_name")]]
    ∧ (dictLookup agent1Registry "talk_to_agent2").map
        (fun gf => gf.impl [("message", Value.str "hi"), ("recipient_name", Value.str "agent2")])
      = some (Except.ok (Value.str "Hello from Agent2")) :=
  ⟨rfl, by decide, rfl, rfl⟩

end AgentsFramework
